import Mathlib

/-!
# Verification of the traefik-openai-header middleware

A shallow embedding of the Go middleware that inspects POST request bodies
(OpenAI chat-completion / batch payloads), extracts fields and republishes
them as request headers before forwarding the body to the next handler.

Modelling conventions:
* Raw body bytes are modelled as a `String` (the Go `[]byte`); only
  emptiness and byte-for-byte equality of bodies are ever observed, and
  both coincide with the corresponding `String` notions (UTF-8 decoding is
  injective).
* `encoding/json` parsing of the raw bytes is abstracted by an
  `Except String Jval` component carried next to the bytes: either the
  scanner's syntax-error message (Go's `checkValid` rejects the input
  before any field is populated) or the parsed JSON value.  Struct
  decoding of a parsed value (`json.Unmarshal` into the three schema
  structs) is implemented faithfully below, including Go's
  continue-on-type-error partial population, first-error reporting,
  last-duplicate-key-wins and ASCII case-insensitive key matching.
* Numeric JSON values are modelled as `Rat`; float32/int range limits and
  the exact shortest-decimal float formatting of `fmt.Sprintf` are not
  modelled (no property proved here observes them).
* `http.Header` is modelled as `String → Option String`; `Header.Set`
  is pointwise update.  MIME canonicalization of header keys is omitted:
  it is the identity on every header name occurring in the properties
  (including the literal `"<nil>"`, which contains a byte invalid in a
  canonical MIME key and is therefore left unchanged by Go as well).
-/

/-- A parsed JSON value (`encoding/json`'s view of a well-formed document). -/
inductive Jval where
  | null
  | bool (b : Bool)
  | num (q : Rat)
  | str (s : String)
  | arr (elems : List Jval)
  | obj (fields : List (String × Jval))
deriving Repr, Inhabited

/-- The noun used by `encoding/json` type-error messages for each JSON kind. -/
def Jval.kindName : Jval → String
  | .null => "null"
  | .bool _ => "bool"
  | .num _ => "number"
  | .str _ => "string"
  | .arr _ => "array"
  | .obj _ => "object"

/-- `json: cannot unmarshal <kind> into Go struct field <field> of type <ty>`. -/
def typeErrMsg (v : Jval) (field ty : String) : String :=
  "json: cannot unmarshal " ++ v.kindName ++ " into Go struct field " ++ field
    ++ " of type " ++ ty

/-- Top-level type mismatch message (`into Go value of type <ty>`). -/
def topTypeErrMsg (v : Jval) (ty : String) : String :=
  "json: cannot unmarshal " ++ v.kindName ++ " into Go value of type " ++ ty

/-- ASCII case folding of a single character, as used by `encoding/json`'s
    case-insensitive field-name matching. -/
def foldChar (c : Char) : Char :=
  if 'A' ≤ c ∧ c ≤ 'Z' then Char.ofNat (c.toNat + 32) else c

/-- ASCII case folding of a JSON object key / struct field name
    (written via the character list so that it reduces definitionally). -/
def foldName (s : String) : String := String.mk (s.toList.map foldChar)

/-- Key matching for struct decoding: `encoding/json` matches JSON keys to
    field names ASCII case-insensitively (the schemas here have no two field
    names that coincide after folding, so exact-match precedence is moot). -/
def keyEq (k name : String) : Bool := foldName k == foldName name

/-- Go's `saveError`: the first decode error is kept, later ones dropped. -/
def saveErr (e : Option String) (m : String) : Option String :=
  match e with
  | some _ => e
  | none => some m

/-! ## Header maps (`http.Header` restricted to `Set`/`Get`) -/

/-- `Header.Set`: pointwise update of the header map. -/
def setH (h : String → Option String) (k v : String) : String → Option String :=
  fun k' => if k' = k then some v else h k'

/-- Apply a sequence of `Header.Set` calls, in order. -/
def applySets : List (String × String) → (String → Option String) → (String → Option String)
  | [], h => h
  | (k, v) :: rest, h => applySets rest (setH h k v)

/-- The value left at key `k'` by a sequence of `Set` calls (last write wins),
    if any of them writes `k'`. -/
def lastWrite : List (String × String) → String → Option String
  | [], _ => none
  | (k, v) :: rest, k' =>
    match lastWrite rest k' with
    | some w => some w
    | none => if k' = k then some v else none

/-! ## Decoding a parsed JSON value into the schema structs

Each helper mirrors `encoding/json`'s behaviour for one Go field type:
a JSON `null` is a no-op for non-pointer fields and stores `nil` for
pointer fields, a matching value is stored, and any other value yields an
`UnmarshalTypeError` whose message is recorded but does not stop the
decode of the remaining fields. -/

/-- Decode into a Go `string` field (current value kept on `null`). -/
def decStr (cur : String) (v : Jval) (path : String) : Except String String :=
  match v with
  | .str s => .ok s
  | .null => .ok cur
  | v => .error (typeErrMsg v path "string")

/-- Decode into a Go `*float32` field. -/
def decOptFloat (v : Jval) (path : String) : Except String (Option Rat) :=
  match v with
  | .num q => .ok (some q)
  | .null => .ok none
  | v => .error (typeErrMsg v path "float32")

/-- Decode into a Go `*int` field (a fractional number is a type error). -/
def decOptInt (v : Jval) (path : String) : Except String (Option Int) :=
  match v with
  | .num q => if q.den = 1 then .ok (some q.num) else .error (typeErrMsg v path "int")
  | .null => .ok none
  | v => .error (typeErrMsg v path "int")

/-- Decode into a Go `*bool` field. -/
def decOptBool (v : Jval) (path : String) : Except String (Option Bool) :=
  match v with
  | .bool b => .ok (some b)
  | .null => .ok none
  | v => .error (typeErrMsg v path "bool")

/-! Fields of the chat-completion schema that the handler never reads are
represented only by their decode-error contribution: the checkers below
return the first `UnmarshalTypeError` message such a field would produce,
or `none` when the value decodes cleanly.  The decoded contents themselves
are dead in the source program. -/

/-- Check a value against a Go struct whose fields (`names`) are all strings
    (`audio`, `responseFormat`, `approximate`). Unknown keys are ignored. -/
def checkStrFields (names : List String) (path ty : String) (v : Jval) : Option String :=
  match v with
  | .null => none
  | .obj kvs =>
    kvs.foldl (fun e kv =>
      if names.any (fun n => keyEq kv.1 n) then
        match kv.2 with
        | .str _ => e
        | .null => e
        | w => saveErr e (typeErrMsg w (path ++ "." ++ foldName kv.1) "string")
      else e) none
  | v => some (typeErrMsg v path ty)

/-- Check a value against Go's `streamOptions` (`include_usage *bool`). -/
def checkStreamOptions (v : Jval) : Option String :=
  match v with
  | .null => none
  | .obj kvs =>
    kvs.foldl (fun e kv =>
      if keyEq kv.1 "include_usage" then
        match kv.2 with
        | .bool _ => e
        | .null => e
        | w => saveErr e
            (typeErrMsg w "chatCompletionRequest.stream_options.include_usage" "bool")
      else e) none
  | v => some (typeErrMsg v "chatCompletionRequest.stream_options" "streamOptions")

/-- Check a value against Go's `userLocation` (one `approximate` sub-struct). -/
def checkUserLocation (v : Jval) : Option String :=
  match v with
  | .null => none
  | .obj kvs =>
    kvs.foldl (fun e kv =>
      if keyEq kv.1 "approximate" then
        match checkStrFields ["city", "country", "region", "timezone"]
            "chatCompletionRequest.web_search_options.user_location.approximate"
            "approximate" kv.2 with
        | some m => saveErr e m
        | none => e
      else e) none
  | v => some (typeErrMsg v "chatCompletionRequest.web_search_options.user_location"
      "userLocation")

/-- Check a value against Go's `webSearchOptions`. -/
def checkWebSearchOptions (v : Jval) : Option String :=
  match v with
  | .null => none
  | .obj kvs =>
    kvs.foldl (fun e kv =>
      if keyEq kv.1 "search_context_size" then
        match kv.2 with
        | .str _ => e
        | .null => e
        | w => saveErr e
            (typeErrMsg w "chatCompletionRequest.web_search_options.search_context_size"
              "string")
      else if keyEq kv.1 "user_location" then
        match checkUserLocation kv.2 with
        | some m => saveErr e m
        | none => e
      else e) none
  | v => some (typeErrMsg v "chatCompletionRequest.web_search_options" "webSearchOptions")

/-- Check a value against a Go `map[string]string` field (`metadata`). -/
def checkMetadata (v : Jval) : Option String :=
  match v with
  | .null => none
  | .obj kvs =>
    kvs.foldl (fun e kv =>
      match kv.2 with
      | .str _ => e
      | .null => e
      | w => saveErr e (typeErrMsg w "chatCompletionRequest.metadata" "string")) none
  | v => some (typeErrMsg v "chatCompletionRequest.metadata" "map[string]string")

/-- Check a value against a Go `[]string` field (`modalities`). -/
def checkModalities (v : Jval) : Option String :=
  match v with
  | .null => none
  | .arr els =>
    els.foldl (fun e w =>
      match w with
      | .str _ => e
      | .null => e
      | w => saveErr e (typeErrMsg w "chatCompletionRequest.modalities" "string")) none
  | v => some (typeErrMsg v "chatCompletionRequest.modalities" "[]string")

/-- The fields of Go's `chatCompletionRequest` that the handler reads after
    decoding.  Fields the handler never reads (`messages`, `audio`,
    `metadata`, `modalities`, `n`, `reasoning_effort`, `response_format`,
    `seed`, `service_tier`, `store`, `stream_options`,
    `web_search_options`) are not stored; their decode checks appear in
    `chatApplyField` so that they still contribute decode errors exactly as
    in the source. -/
structure chatCompletionRequest where
  Model : String := ""
  FrequencyPenalty : Option Rat := none
  MaxCompletionTokens : Option Rat := none
  PresencePenalty : Option Rat := none
  Stream : Option Bool := none
  Temperature : Option Rat := none
  TopP : Option Rat := none
  User : String := ""
  Logprobs : Option Int := none
  TopLogprobs : Option Int := none
  ToolChoice : Option Jval := none
deriving Repr, Inhabited

/-- Process one JSON object member during `json.Unmarshal` into
    `chatCompletionRequest`: update the matched field (later duplicate keys
    overwrite earlier ones), record the first type error without aborting,
    and ignore unknown keys. -/
def chatApplyField (st : chatCompletionRequest × Option String) (kv : String × Jval) :
    chatCompletionRequest × Option String :=
  let req := st.1
  let e := st.2
  let k := kv.1
  let v := kv.2
  if keyEq k "model" then
    match decStr req.Model v "chatCompletionRequest.model" with
    | .ok s => ({ req with Model := s }, e)
    | .error m => (req, saveErr e m)
  else if keyEq k "messages" then
    -- `json.RawMessage`: stores the raw bytes of any value, never fails.
    (req, e)
  else if keyEq k "audio" then
    match checkStrFields ["format", "voice"] "chatCompletionRequest.audio" "audio" v with
    | some m => (req, saveErr e m)
    | none => (req, e)
  else if keyEq k "frequency_penalty" then
    match decOptFloat v "chatCompletionRequest.frequency_penalty" with
    | .ok x => ({ req with FrequencyPenalty := x }, e)
    | .error m => (req, saveErr e m)
  else if keyEq k "max_completion_tokens" then
    match decOptFloat v "chatCompletionRequest.max_completion_tokens" with
    | .ok x => ({ req with MaxCompletionTokens := x }, e)
    | .error m => (req, saveErr e m)
  else if keyEq k "metadata" then
    match checkMetadata v with
    | some m => (req, saveErr e m)
    | none => (req, e)
  else if keyEq k "modalities" then
    match checkModalities v with
    | some m => (req, saveErr e m)
    | none => (req, e)
  else if keyEq k "n" then
    match decOptInt v "chatCompletionRequest.n" with
    | .ok _ => (req, e)
    | .error m => (req, saveErr e m)
  else if keyEq k "presence_penalty" then
    match decOptFloat v "chatCompletionRequest.presence_penalty" with
    | .ok x => ({ req with PresencePenalty := x }, e)
    | .error m => (req, saveErr e m)
  else if keyEq k "reasoning_effort" then
    match decStr "" v "chatCompletionRequest.reasoning_effort" with
    | .ok _ => (req, e)
    | .error m => (req, saveErr e m)
  else if keyEq k "response_format" then
    match checkStrFields ["type"] "chatCompletionRequest.response_format"
        "responseFormat" v with
    | some m => (req, saveErr e m)
    | none => (req, e)
  else if keyEq k "seed" then
    match decOptInt v "chatCompletionRequest.seed" with
    | .ok _ => (req, e)
    | .error m => (req, saveErr e m)
  else if keyEq k "service_tier" then
    match decStr "" v "chatCompletionRequest.service_tier" with
    | .ok _ => (req, e)
    | .error m => (req, saveErr e m)
  else if keyEq k "store" then
    match decOptBool v "chatCompletionRequest.store" with
    | .ok _ => (req, e)
    | .error m => (req, saveErr e m)
  else if keyEq k "stream" then
    match decOptBool v "chatCompletionRequest.stream" with
    | .ok x => ({ req with Stream := x }, e)
    | .error m => (req, saveErr e m)
  else if keyEq k "stream_options" then
    match checkStreamOptions v with
    | some m => (req, saveErr e m)
    | none => (req, e)
  else if keyEq k "temperature" then
    match decOptFloat v "chatCompletionRequest.temperature" with
    | .ok x => ({ req with Temperature := x }, e)
    | .error m => (req, saveErr e m)
  else if keyEq k "top_p" then
    match decOptFloat v "chatCompletionRequest.top_p" with
    | .ok x => ({ req with TopP := x }, e)
    | .error m => (req, saveErr e m)
  else if keyEq k "user" then
    match decStr req.User v "chatCompletionRequest.user" with
    | .ok s => ({ req with User := s }, e)
    | .error m => (req, saveErr e m)
  else if keyEq k "web_search_options" then
    match checkWebSearchOptions v with
    | some m => (req, saveErr e m)
    | none => (req, e)
  else if keyEq k "logprobs" then
    match decOptInt v "chatCompletionRequest.logprobs" with
    | .ok x => ({ req with Logprobs := x }, e)
    | .error m => (req, saveErr e m)
  else if keyEq k "top_logprobs" then
    match decOptInt v "chatCompletionRequest.top_logprobs" with
    | .ok x => ({ req with TopLogprobs := x }, e)
    | .error m => (req, saveErr e m)
  else if keyEq k "tool_choice" then
    -- `interface{}`: any value decodes; `null` stores a nil interface.
    match v with
    | .null => ({ req with ToolChoice := none }, e)
    | v => ({ req with ToolChoice := some v }, e)
  else
    -- unknown object keys are ignored by `encoding/json`
    (req, e)

/-- `json.Unmarshal` of a parsed value into `chatCompletionRequest`:
    `null` is a no-op success, an object is decoded member by member, and
    any other top-level value is a type error with nothing populated. -/
def unmarshalChat (v : Jval) : chatCompletionRequest × Option String :=
  match v with
  | .null => ({}, none)
  | .obj kvs => kvs.foldl chatApplyField ({}, none)
  | v => ({}, some (topTypeErrMsg v "chatCompletionRequest"))

/-- `json.Unmarshal` applied to the raw body bytes: a syntax error found by
    the scanner is returned with nothing populated, otherwise the parsed
    value is decoded. -/
def unmarshalChatBody (parse : Except String Jval) : chatCompletionRequest × Option String :=
  match parse with
  | .error m => ({}, some m)
  | .ok v => unmarshalChat v

/-- The error produced by `json.Unmarshal` of the body into Go's
    `chatCompletionModelOnlyRequest` (`model string` only); the decoded
    struct itself is never read by the source, which reuses the full
    decode's `request.Model` instead, so only the error is modelled. -/
def modelOnlyUnmarshalErr (parse : Except String Jval) : Option String :=
  match parse with
  | .error m => some m
  | .ok .null => none
  | .ok (.obj kvs) =>
    kvs.foldl (fun e kv =>
      if keyEq kv.1 "model" then
        match kv.2 with
        | .str _ => e
        | .null => e
        | w => saveErr e (typeErrMsg w "chatCompletionModelOnlyRequest.model" "string")
      else e) none
  | .ok v => some (topTypeErrMsg v "chatCompletionModelOnlyRequest")

/-- Go's `batchRequest` schema: two string fields. -/
structure batchRequest where
  CompletionWindow : String := ""
  Endpoint : String := ""
deriving Repr, Inhabited

/-- `json.Unmarshal` of the raw body bytes into `batchRequest`. -/
def unmarshalBatchBody (parse : Except String Jval) : batchRequest × Option String :=
  match parse with
  | .error m => ({}, some m)
  | .ok .null => ({}, none)
  | .ok (.obj kvs) =>
    kvs.foldl (fun st kv =>
      if keyEq kv.1 "completion_window" then
        match decStr st.1.CompletionWindow kv.2 "batchRequest.completion_window" with
        | .ok s => ({ st.1 with CompletionWindow := s }, st.2)
        | .error m => (st.1, saveErr st.2 m)
      else if keyEq kv.1 "endpoint" then
        match decStr st.1.Endpoint kv.2 "batchRequest.endpoint" with
        | .ok s => ({ st.1 with Endpoint := s }, st.2)
        | .error m => (st.1, saveErr st.2 m)
      else st) (({} : batchRequest), none)
  | .ok v => ({}, some (topTypeErrMsg v "batchRequest"))

/-! ## Formatting (`fmt.Sprintf("%v", ...)` on the emitted field values) -/

/-- `fmt.Sprintf("%v", f)` for a `float32` value: integers print without a
    decimal point, other values in decimal form.  (The exact
    shortest-round-trip digit selection of the Go runtime is not modelled;
    no property below observes these digits.) -/
def formatFloat (q : Rat) : String :=
  match (List.range 40).find? (fun k => 10 ^ k % q.den = 0) with
  | some k =>
    let scale := 10 ^ k / q.den
    let a := q.num.natAbs * scale
    let sgn := if q.num < 0 then "-" else ""
    if k = 0 then
      sgn ++ toString a
    else
      let fr := toString (a % 10 ^ k)
      sgn ++ toString (a / 10 ^ k) ++ "." ++
        String.mk (List.replicate (k - fr.length) '0') ++ fr
  | none => toString q

/-- `fmt.Sprintf("%v", i)` for an `int` value. -/
def formatInt (i : Int) : String := toString i

/-- `fmt.Sprintf("%v", b)` for a `bool` value. -/
def formatBool (b : Bool) : String := if b then "true" else "false"

/-- The Go type assertion `request.ToolChoice.(string)` on the decoded
    `interface{}` value (`none` models a nil interface). -/
def assertString (tc : Option Jval) : Option String :=
  match tc with
  | some (.str s) => some s
  | _ => none

/-! ## The handler and the HTTP layer -/

/-- `const ParseFailureHeader = "X-OpenAI-Parse-Failure"`. -/
def ParseFailureHeader : String := "X-OpenAI-Parse-Failure"

/-- The `Handler` struct: configuration established by `New`. -/
structure Handler where
  name : String := ""
  requestFields : List (String × String)
  requestURIRegex : String
  batchRequestURIRegex : String

/-- `fmt.Sprintf("%v", e.requestFields[k])`: the configured header name for
    a logical field, or the literal `"<nil>"` rendering of a nil map lookup
    when the key is absent.  The `map[string]interface{}` is modelled as an
    association list of strings (every value the program ever supplies or
    formats is a string). -/
def fieldName (e : Handler) (k : String) : String :=
  match e.requestFields.lookup k with
  | some v => v
  | none => "<nil>"

/-- Whether `p` occurs as a contiguous run inside `s`. -/
def listContains (p : List Char) : List Char → Bool
  | [] => p.isEmpty
  | c :: rest => p.isPrefixOf (c :: rest) || listContains p rest

/-- `regexp.MatchString pattern s` for a pattern free of regex
    metacharacters: Go's regexp is unanchored, so a literal pattern matches
    iff it occurs as a substring.  Every pattern appearing in the
    properties below is literal. -/
def matchString (pattern s : String) : Bool :=
  listContains pattern.toList s.toList

/-- The captured request body: the raw bytes together with the
    `encoding/json` scan/parse outcome for those bytes. -/
structure Body where
  raw : String
  parse : Except String Jval

/-- An `*http.Request` restricted to what the middleware touches.  `body`
    is the result of draining the body stream: the bytes obtained and the
    read error, if the stream failed (`io.ReadAll` returns the bytes read
    so far alongside the error). -/
structure Request where
  method : String
  path : String
  query : String
  header : String → Option String
  body : Body × Option String

/-- `r.RequestURI`: the origin-form request target, path plus query. -/
def Request.requestURI (r : Request) : String :=
  r.path ++ (if r.query = "" then "" else "?" ++ r.query)

/-- `r.Header.Set(k, v)`. -/
def Request.setHeader (r : Request) (k v : String) : Request :=
  { r with header := setH r.header k v }

/-- `handleChatCompletionRequest` (source lines 181–236): full decode;
    on failure set the diagnostic header to the decode error and fall back
    to the model-only decode; then the optional-field cascade, which runs
    on the (possibly partially populated) full-decode struct in every
    case.  Pointer nil-checks `x != nil` with dereference `*x` are rendered
    as `isSome` with `getD`. -/
def handleChatCompletionRequest (e : Handler) (data : Body) (r : Request) : Request :=
  let p := unmarshalChatBody data.parse
  let request := p.1
  let r :=
    match p.2 with
    | some msg =>
      let r := r.setHeader ParseFailureHeader msg
      match modelOnlyUnmarshalErr data.parse with
      | some _ => r.setHeader ParseFailureHeader "Unknown model"
      | none => r.setHeader (fieldName e "model") request.Model
    | none => r.setHeader (fieldName e "model") request.Model
  let r := if request.User != "" then
      r.setHeader (fieldName e "user") request.User else r
  let r := if request.Temperature.isSome then
      r.setHeader (fieldName e "temperature") (formatFloat (request.Temperature.getD 0)) else r
  let r := if request.MaxCompletionTokens.isSome then
      r.setHeader (fieldName e "max_completion_tokens")
        (formatFloat (request.MaxCompletionTokens.getD 0)) else r
  let r := if request.Logprobs.isSome then
      r.setHeader (fieldName e "logprobs") (formatInt (request.Logprobs.getD 0)) else r
  let r := if request.TopLogprobs.isSome then
      r.setHeader (fieldName e "top_logprobs") (formatInt (request.TopLogprobs.getD 0)) else r
  let r := if (assertString request.ToolChoice).isSome then
      r.setHeader (fieldName e "tool_choice") ((assertString request.ToolChoice).getD "") else r
  let r := if request.FrequencyPenalty.isSome then
      r.setHeader (fieldName e "frequency_penalty")
        (formatFloat (request.FrequencyPenalty.getD 0)) else r
  let r := if request.PresencePenalty.isSome then
      r.setHeader (fieldName e "presence_penalty")
        (formatFloat (request.PresencePenalty.getD 0)) else r
  let r := if request.TopP.isSome then
      r.setHeader (fieldName e "top_p") (formatFloat (request.TopP.getD 0)) else r
  let r := if request.Stream.isSome then
      r.setHeader (fieldName e "stream") (formatBool (request.Stream.getD false)) else r
  r

/-- `handleBatchRequest` (source lines 238–247): on decode failure set only
    the diagnostic header; on success set the two field headers
    unconditionally. -/
def handleBatchRequest (e : Handler) (data : Body) (r : Request) : Request :=
  let p := unmarshalBatchBody data.parse
  match p.2 with
  | some msg => r.setHeader ParseFailureHeader msg
  | none =>
    let r := r.setHeader (fieldName e "completion_window") p.1.CompletionWindow
    r.setHeader (fieldName e "endpoint") p.1.Endpoint

/-- The chat-completion classification (source line 144): the configured
    pattern matched against `r.RequestURI`. -/
def isChatCompletionRequest (e : Handler) (r : Request) : Bool :=
  matchString e.requestURIRegex r.requestURI

/-- The batch classification (source line 149). -/
def isBatchRequest (e : Handler) (r : Request) : Bool :=
  matchString e.batchRequestURIRegex r.requestURI

/-- The observable outcome of one `ServeHTTP` call: the error response
    written directly by the middleware (via `http.Error`), whether the next
    handler in the chain was invoked, and the request object it received. -/
structure ServeOutcome where
  response : Option (Nat × String)
  nextCalled : Bool
  request : Request

/-- `Handler.ServeHTTP` (source lines 143–179).  Note that after a body
    read error the source writes an internal-error response but does not
    return: processing continues with the bytes read so far, and
    `e.next.ServeHTTP` is reached on every path. -/
def serveHTTP (e : Handler) (r : Request) : ServeOutcome :=
  let isChat := isChatCompletionRequest e r
  let isBatch := isBatchRequest e r
  if (isChat || isBatch) && r.method == "POST" then
    let data := r.body.1
    let readErr := r.body.2
    let response := match readErr with
      | some msg => some (500, msg)
      | none => none
    let r := if data.raw.length < 1 then r.setHeader ParseFailureHeader "empty body" else r
    let r := if data.raw.length > 0 && e.requestFields.length > 0 && isChat then
        handleChatCompletionRequest e data r else r
    let r := if data.raw.length > 0 && e.requestFields.length > 0 && isBatch then
        handleBatchRequest e data r else r
    let r := { r with body := (data, none) }
    { response := response, nextCalled := true, request := r }
  else
    { response := none, nextCalled := true, request := r }

/-- The default field mapping built by `CreateConfig` (source lines 26–39). -/
def defaultRequestFields : List (String × String) :=
  [("model", "X-OpenAI-Model"),
   ("frequency_penalty", "X-OpenAI-Frequency-Penalty"),
   ("user", "X-OpenAI-User"),
   ("temperature", "X-OpenAI-Temperature"),
   ("top_p", "X-OpenAI-Top-P"),
   ("max_completion_tokens", "X-OpenAI-Max-Completion-Tokens"),
   ("presence_penalty", "X-OpenAI-Presence-Penalty"),
   ("logprobs", "X-OpenAI-Logprobs"),
   ("top_logprobs", "X-OpenAI-Top-Logprobs"),
   ("tool_choice", "X-OpenAI-Tool-Choice"),
   ("stream", "X-OpenAI-Stream"),
   ("completion_window", "X-OpenAI-Completion-Window"),
   ("endpoint", "X-OpenAI-Endpoint")]

/-- A handler with the default configuration of `CreateConfig`. -/
def defaultHandler : Handler :=
  { name := "test",
    requestFields := defaultRequestFields,
    requestURIRegex := "/v1/chat/completions",
    batchRequestURIRegex := "/v1/batches" }

/-! ## The emitted header sequence of each extractor

`chatEmits`/`batchEmits` list, in order, the `Header.Set` calls the two
extraction functions perform; they depend only on the configuration and
the captured bytes, never on the incoming request.  The lemmas
`handleChat_header` and `handleBatch_header` prove that the extraction
functions are exactly the application of these sequences. -/

/-- A conditional single emission. -/
def emitIf (c : Bool) (k v : String) : List (String × String) :=
  if c then [(k, v)] else []

/-- The `Header.Set` calls of `handleChatCompletionRequest`, in order. -/
def chatEmits (e : Handler) (data : Body) : List (String × String) :=
  let p := unmarshalChatBody data.parse
  let request := p.1
  (match p.2 with
   | some msg =>
     (ParseFailureHeader, msg) ::
       (match modelOnlyUnmarshalErr data.parse with
        | some _ => [(ParseFailureHeader, "Unknown model")]
        | none => [(fieldName e "model", request.Model)])
   | none => [(fieldName e "model", request.Model)]) ++
  emitIf (request.User != "") (fieldName e "user") request.User ++
  emitIf request.Temperature.isSome (fieldName e "temperature")
    (formatFloat (request.Temperature.getD 0)) ++
  emitIf request.MaxCompletionTokens.isSome (fieldName e "max_completion_tokens")
    (formatFloat (request.MaxCompletionTokens.getD 0)) ++
  emitIf request.Logprobs.isSome (fieldName e "logprobs")
    (formatInt (request.Logprobs.getD 0)) ++
  emitIf request.TopLogprobs.isSome (fieldName e "top_logprobs")
    (formatInt (request.TopLogprobs.getD 0)) ++
  emitIf (assertString request.ToolChoice).isSome (fieldName e "tool_choice")
    ((assertString request.ToolChoice).getD "") ++
  emitIf request.FrequencyPenalty.isSome (fieldName e "frequency_penalty")
    (formatFloat (request.FrequencyPenalty.getD 0)) ++
  emitIf request.PresencePenalty.isSome (fieldName e "presence_penalty")
    (formatFloat (request.PresencePenalty.getD 0)) ++
  emitIf request.TopP.isSome (fieldName e "top_p")
    (formatFloat (request.TopP.getD 0)) ++
  emitIf request.Stream.isSome (fieldName e "stream")
    (formatBool (request.Stream.getD false))

/-- The `Header.Set` calls of `handleBatchRequest`, in order. -/
def batchEmits (e : Handler) (data : Body) : List (String × String) :=
  let p := unmarshalBatchBody data.parse
  match p.2 with
  | some msg => [(ParseFailureHeader, msg)]
  | none =>
    [(fieldName e "completion_window", p.1.CompletionWindow),
     (fieldName e "endpoint", p.1.Endpoint)]

/-- A request whose body stream fails: `io.ReadAll` returns no bytes and a
    read error. -/
def c1Request : Request :=
  { method := "POST", path := "/v1/chat/completions", query := "",
    header := fun _ => none,
    body := ({ raw := "", parse := .error "unexpected end of JSON input" },
             some "read error: connection reset") }

/-- Call-completion body `{"temperature":true,"user":"u"}`: the full decode
    fails on `temperature`, the reduced (model-only) decode succeeds. -/
def c2Request : Request :=
  { method := "POST", path := "/v1/chat/completions", query := "",
    header := fun _ => none,
    body := ({ raw := "\x7b\"temperature\":true,\"user\":\"u\"\x7d",
               parse := .ok (.obj [("temperature", .bool true), ("user", .str "u")]) },
             none) }

/-- The full-decode error message at `c2Request`. -/
def c2Msg : String :=
  "json: cannot unmarshal bool into Go struct field chatCompletionRequest.temperature of type float32"

/-- The partially populated full-decode result at `c2Request`. -/
def c2Struct : chatCompletionRequest := { User := "u" }

/-- Call-completion body `{"model":123,"user":"u"}`: both the full decode
    and the reduced decode fail (on `model`), while `user` is populated. -/
def c3Request : Request :=
  { method := "POST", path := "/v1/chat/completions", query := "",
    header := fun _ => none,
    body := ({ raw := "\x7b\"model\":123,\"user\":\"u\"\x7d",
               parse := .ok (.obj [("model", .num 123), ("user", .str "u")]) },
             none) }

/-- The full-decode error message at `c3Request`. -/
def c3Msg : String :=
  "json: cannot unmarshal number into Go struct field chatCompletionRequest.model of type string"

/-- The reduced-decode error message at `c3Request`. -/
def c3Msg2 : String :=
  "json: cannot unmarshal number into Go struct field chatCompletionModelOnlyRequest.model of type string"

/-- The partially populated full-decode result at `c3Request`. -/
def c3Struct : chatCompletionRequest := { User := "u" }

/-- A matched POST request with an empty captured body. -/
def c4Request : Request :=
  { method := "POST", path := "/v1/chat/completions", query := "",
    header := fun _ => none,
    body := ({ raw := "", parse := .error "unexpected end of JSON input" }, none) }

/-- A request whose path alone matches nothing, but whose query string
    contains the configured chat pattern. -/
def c5ReqWithQuery : Request :=
  { method := "POST", path := "/other", query := "q=/v1/chat/completions",
    header := fun _ => none,
    body := ({ raw := "", parse := .error "unexpected end of JSON input" }, none) }

/-- The same request with the query string removed. -/
def c5ReqNoQuery : Request :=
  { method := "POST", path := "/other", query := "",
    header := fun _ => none,
    body := ({ raw := "", parse := .error "unexpected end of JSON input" }, none) }

/-- Two distinct requests sharing the same full request target. -/
def c5ReqSameUriA : Request :=
  { method := "POST", path := "/v1/chat/completions", query := "a=1",
    header := fun _ => none,
    body := ({ raw := "x", parse := .error "invalid character 'x' looking for beginning of value" }, none) }

/-- Same target URI as `c5ReqSameUriA`, different body. -/
def c5ReqSameUriB : Request :=
  { method := "POST", path := "/v1/chat/completions", query := "a=1",
    header := fun _ => none,
    body := ({ raw := "y", parse := .error "invalid character 'y' looking for beginning of value" }, none) }

/-- Call-completion body `{"tool_choice":{"type":"file_search"}}`: a
    successful full decode whose tool-choice is an object, with `model`
    absent. -/
def c6Request : Request :=
  { method := "POST", path := "/v1/chat/completions", query := "",
    header := fun _ => none,
    body := ({ raw := "\x7b\"tool_choice\":\x7b\"type\":\"file_search\"\x7d\x7d",
               parse := .ok (.obj [("tool_choice", .obj [("type", .str "file_search")])]) },
             none) }

/-- The decode result at `c6Request`. -/
def c6Struct : chatCompletionRequest :=
  { ToolChoice := some (.obj [("type", Jval.str "file_search")]) }

/-- A POST to the batch path whose body is not JSON. -/
def c7Request : Request :=
  { method := "POST", path := "/v1/batches", query := "",
    header := fun _ => none,
    body := ({ raw := "INVALID JSON",
               parse := .error "invalid character 'I' looking for beginning of value" },
             none) }

/-- A matched POST request with a well-formed body and a clean read. -/
def c8Request : Request :=
  { method := "POST", path := "/v1/chat/completions", query := "",
    header := fun _ => none,
    body := ({ raw := "\x7b\"model\":\"m\"\x7d", parse := .ok (.obj [("model", .str "m")]) },
             none) }

/-- A non-empty field mapping that omits the logical field "model". -/
def c10Handler : Handler :=
  { name := "test",
    requestFields := [("user", "X-User-Hdr")],
    requestURIRegex := "/v1/chat/completions",
    batchRequestURIRegex := "/v1/batches" }

/-- A successfully decoding call-completion body for `c10Handler`. -/
def c10Request : Request :=
  { method := "POST", path := "/v1/chat/completions", query := "",
    header := fun _ => none,
    body := ({ raw := "\x7b\"model\":\"gpt\"\x7d", parse := .ok (.obj [("model", .str "gpt")]) },
             none) }

theorem applySets_eval (L : List (String × String)) (h : String → Option String)
    (k' : String) :
    applySets L h k' = match lastWrite L k' with
      | some w => some w
      | none => h k' := by
  induction L generalizing h with
  | nil => simp [applySets, lastWrite]
  | cons p rest ih =>
    obtain ⟨k, v⟩ := p
    rw [applySets, ih, lastWrite]
    cases lastWrite rest k' with
    | some w => simp
    | none => by_cases hk : k' = k <;> simp [setH, hk]

theorem applySets_append (A B : List (String × String)) (h : String → Option String) :
    applySets (A ++ B) h = applySets B (applySets A h) := by
  induction A generalizing h with
  | nil => simp [applySets]
  | cons p rest ih =>
    obtain ⟨k, v⟩ := p
    simp [applySets, ih]

theorem lastWrite_append (A B : List (String × String)) (k' : String) :
    lastWrite (A ++ B) k' = match lastWrite B k' with
      | some w => some w
      | none => lastWrite A k' := by
  induction A with
  | nil => cases h : lastWrite B k' <;> simp [lastWrite, h]
  | cons p rest ih =>
    obtain ⟨k, v⟩ := p
    rw [List.cons_append, lastWrite, ih, lastWrite]
    cases lastWrite B k' <;> cases lastWrite rest k' <;> simp

/-- Replaying the same sequence of `Set` calls is idempotent on header maps. -/
theorem applySets_idem (L : List (String × String)) (h : String → Option String) :
    applySets L (applySets L h) = applySets L h := by
  funext k'
  rw [applySets_eval, applySets_eval]
  cases lastWrite L k' <;> simp

theorem setHeader_header (r : Request) (k v : String) :
    (r.setHeader k v).header = setH r.header k v := rfl

theorem step_if (c : Bool) (k v : String) (r : Request) :
    (if c then r.setHeader k v else r).header = applySets (emitIf c k v) r.header := by
  cases c <;> simp [emitIf, applySets, Request.setHeader]

theorem applySets_emitIf (c : Bool) (k v : String) (h : String → Option String) :
    applySets (emitIf c k v) h = if c then setH h k v else h := by
  cases c <;> simp [emitIf, applySets]

theorem handleChat_header (e : Handler) (data : Body) (r : Request) :
    (handleChatCompletionRequest e data r).header
      = applySets (chatEmits e data) r.header := by
  simp only [handleChatCompletionRequest, chatEmits]
  simp only [step_if, applySets_append, applySets_emitIf]
  cases hp : (unmarshalChatBody data.parse).2 with
  | none => simp [applySets, Request.setHeader]
  | some msg =>
    cases hm : modelOnlyUnmarshalErr data.parse <;>
      simp [applySets, Request.setHeader]

theorem handleBatch_header (e : Handler) (data : Body) (r : Request) :
    (handleBatchRequest e data r).header
      = applySets (batchEmits e data) r.header := by
  simp only [handleBatchRequest, batchEmits]
  cases hp : (unmarshalBatchBody data.parse).2 <;>
    simp [applySets, Request.setHeader]

theorem lastWrite_emitIf (c : Bool) (k v k' : String) :
    lastWrite (emitIf c k v) k'
      = if k' = k then (if c then some v else none) else none := by
  cases c <;> by_cases h : k' = k <;> simp [emitIf, lastWrite, h]

theorem fieldName_default_model :
    fieldName defaultHandler "model" = "X-OpenAI-Model" := rfl

theorem fieldName_default_user :
    fieldName defaultHandler "user" = "X-OpenAI-User" := rfl

theorem fieldName_default_temperature :
    fieldName defaultHandler "temperature" = "X-OpenAI-Temperature" := rfl

theorem fieldName_default_mct :
    fieldName defaultHandler "max_completion_tokens"
      = "X-OpenAI-Max-Completion-Tokens" := rfl

theorem fieldName_default_logprobs :
    fieldName defaultHandler "logprobs" = "X-OpenAI-Logprobs" := rfl

theorem fieldName_default_top_logprobs :
    fieldName defaultHandler "top_logprobs" = "X-OpenAI-Top-Logprobs" := rfl

theorem fieldName_default_tool_choice :
    fieldName defaultHandler "tool_choice" = "X-OpenAI-Tool-Choice" := rfl

theorem fieldName_default_frequency_penalty :
    fieldName defaultHandler "frequency_penalty" = "X-OpenAI-Frequency-Penalty" := rfl

theorem fieldName_default_presence_penalty :
    fieldName defaultHandler "presence_penalty" = "X-OpenAI-Presence-Penalty" := rfl

theorem fieldName_default_top_p :
    fieldName defaultHandler "top_p" = "X-OpenAI-Top-P" := rfl

theorem fieldName_default_stream :
    fieldName defaultHandler "stream" = "X-OpenAI-Stream" := rfl

/-- On a matched POST chat-completion request with a non-empty body and a
    non-empty field mapping, `ServeHTTP` forwards the request with exactly
    the chat extractor's header emissions applied. -/
theorem serveHTTP_chatPath (e : Handler) (r : Request)
    (hchat : isChatCompletionRequest e r = true)
    (hbatch : isBatchRequest e r = false)
    (hpost : r.method = "POST")
    (hlen : 0 < r.body.1.raw.length)
    (hfields : 0 < e.requestFields.length) :
    (serveHTTP e r).request.header = applySets (chatEmits e r.body.1) r.header := by
  have h1 : ¬ r.body.1.raw.length < 1 := by omega
  simp [serveHTTP, hchat, hbatch, hpost, h1, hlen, hfields, handleChat_header]

/-- On a matched POST batch request (not also matching the chat pattern)
    with a non-empty body and a non-empty field mapping, `ServeHTTP`
    forwards the request with exactly the batch extractor's header
    emissions applied. -/
theorem serveHTTP_batchPath (e : Handler) (r : Request)
    (hchat : isChatCompletionRequest e r = false)
    (hbatch : isBatchRequest e r = true)
    (hpost : r.method = "POST")
    (hlen : 0 < r.body.1.raw.length)
    (hfields : 0 < e.requestFields.length) :
    (serveHTTP e r).request.header = applySets (batchEmits e r.body.1) r.header := by
  have h1 : ¬ r.body.1.raw.length < 1 := by omega
  simp [serveHTTP, hchat, hbatch, hpost, h1, hlen, hfields, handleBatch_header]

/-- C4: For every POST request on a matching path whose captured body is
    empty, exactly one header is emitted: the diagnostic header with value
    "empty body"; no field headers are emitted and neither extractor runs
    (their guards require a non-empty body), so no decode is attempted. -/
theorem c4_empty_body_only_diagnostic (e : Handler) (r : Request)
    (hmatch : (isChatCompletionRequest e r || isBatchRequest e r) = true)
    (hpost : r.method = "POST")
    (hraw : r.body.1.raw.length = 0) :
    ∀ k, (serveHTTP e r).request.header k
      = if k = ParseFailureHeader then some "empty body" else r.header k := by
  intro k
  have h1 : r.body.1.raw.length < 1 := by omega
  have h2 : ¬ 0 < r.body.1.raw.length := by omega
  simp [serveHTTP, hmatch, hpost, h1, h2, Request.setHeader, setH]

/-- C7: For every non-empty body on the batch path (and not the chat path)
    whose batch-schema decode fails, the forwarded request's headers differ
    from the incoming ones at exactly the diagnostic header, which carries
    the underlying decode error message; in particular neither the
    completion-window nor the endpoint header is emitted. -/
theorem c7_batch_decode_failure_only_diagnostic (e : Handler) (r : Request)
    (breq : batchRequest) (msg : String)
    (hchat : isChatCompletionRequest e r = false)
    (hbatch : isBatchRequest e r = true)
    (hpost : r.method = "POST")
    (hlen : 0 < r.body.1.raw.length)
    (hfields : 0 < e.requestFields.length)
    (hdec : unmarshalBatchBody r.body.1.parse = (breq, some msg)) :
    ∀ k, (serveHTTP e r).request.header k
      = if k = ParseFailureHeader then some msg else r.header k := by
  intro k
  rw [serveHTTP_batchPath e r hchat hbatch hpost hlen hfields]
  simp [batchEmits, hdec, applySets, setH]

/-- C8: For every matched POST request whose body read succeeds, the body
    handed to the next stage carries byte-for-byte the same byte sequence
    as the captured original body, as a fresh error-free stream. -/
theorem c8_body_replay (e : Handler) (r : Request)
    (hmatch : (isChatCompletionRequest e r || isBatchRequest e r) = true)
    (hpost : r.method = "POST")
    (_hread : r.body.2 = none) :
    (serveHTTP e r).request.body.1.raw = r.body.1.raw
    ∧ (serveHTTP e r).request.body.2 = none := by
  simp [serveHTTP, hmatch, hpost]

/-- C9: The field extractors are idempotent: applying either extractor
    twice in succession to the same captured bytes leaves the request's
    header set identical to applying it once. -/
theorem c9_extractor_idempotent (e : Handler) (data : Body) (r : Request) :
    (handleChatCompletionRequest e data (handleChatCompletionRequest e data r)).header
      = (handleChatCompletionRequest e data r).header
    ∧ (handleBatchRequest e data (handleBatchRequest e data r)).header
      = (handleBatchRequest e data r).header := by
  constructor
  · simp only [handleChat_header, applySets_idem]
  · simp only [handleBatch_header, applySets_idem]

theorem lastWrite_append_isSome_left (A B : List (String × String)) (k : String)
    (h : (lastWrite A k).isSome = true) : (lastWrite (A ++ B) k).isSome = true := by
  rw [lastWrite_append]
  split
  · rfl
  · exact h

/-- C10: If the configured field mapping is non-empty but omits the logical
    field "model", then on the chat path every successful full decode makes
    the extractor set a header whose name is the literal "<nil>" (the
    formatted nil map lookup); the forwarded request carries that header. -/
theorem c10_missing_model_mapping_emits_nil_header (e : Handler) (r : Request)
    (req : chatCompletionRequest)
    (hchat : isChatCompletionRequest e r = true)
    (hbatch : isBatchRequest e r = false)
    (hpost : r.method = "POST")
    (hlen : 0 < r.body.1.raw.length)
    (hfields : 0 < e.requestFields.length)
    (hmodel : e.requestFields.lookup "model" = none)
    (hfull : unmarshalChatBody r.body.1.parse = (req, none)) :
    ((serveHTTP e r).request.header "<nil>").isSome = true := by
  rw [serveHTTP_chatPath e r hchat hbatch hpost hlen hfields, applySets_eval]
  have hf : fieldName e "model" = "<nil>" := by simp [fieldName, hmodel]
  have key : (lastWrite (chatEmits e r.body.1) "<nil>").isSome = true := by
    simp only [chatEmits, hfull]
    repeat apply lastWrite_append_isSome_left
    simp [lastWrite, hf]
  obtain ⟨w, hw⟩ := Option.isSome_iff_exists.mp key
  simp [hw]

/-- C2 (amended): under the default mapping, for every non-empty body on
    the call-completion path whose full-schema decode fails but whose
    reduced (model-only) decode succeeds, the model header is emitted with
    the (partially) decoded model value, the diagnostic header IS present
    and carries the full-decode error message, and optional-field headers
    are still emitted for optional fields the partial decode populated
    (shown here for "user"). -/
theorem c2_reduced_decode_emits_model_and_diagnostic (r : Request)
    (req : chatCompletionRequest) (msg : String)
    (hchat : isChatCompletionRequest defaultHandler r = true)
    (hbatch : isBatchRequest defaultHandler r = false)
    (hpost : r.method = "POST")
    (hlen : 0 < r.body.1.raw.length)
    (hfull : unmarshalChatBody r.body.1.parse = (req, some msg))
    (hred : modelOnlyUnmarshalErr r.body.1.parse = none) :
    (serveHTTP defaultHandler r).request.header ParseFailureHeader = some msg
    ∧ (serveHTTP defaultHandler r).request.header "X-OpenAI-Model" = some req.Model
    ∧ (serveHTTP defaultHandler r).request.header "X-OpenAI-User"
        = (if req.User = "" then r.header "X-OpenAI-User" else some req.User) := by
  rw [serveHTTP_chatPath defaultHandler r hchat hbatch hpost hlen (by decide)]
  refine ⟨?_, ?_, ?_⟩ <;>
    rw [applySets_eval] <;>
    simp [chatEmits, hfull, hred, lastWrite_append, lastWrite_emitIf, lastWrite,
      fieldName_default_model, fieldName_default_user, fieldName_default_temperature,
      fieldName_default_mct, fieldName_default_logprobs, fieldName_default_top_logprobs,
      fieldName_default_tool_choice, fieldName_default_frequency_penalty,
      fieldName_default_presence_penalty, fieldName_default_top_p,
      fieldName_default_stream, ParseFailureHeader, bne_iff_ne, ite_not] <;>
    by_cases hU : req.User = "" <;> simp [hU]

/-- C3 (amended): under the default mapping, for every non-empty body on
    the call-completion path for which both the full-schema decode and the
    reduced (model-only) decode fail, the diagnostic header is emitted with
    the generic "Unknown model" message and the model header is not
    emitted; but optional-field headers are still emitted for optional
    fields the failed full decode populated (shown here for "user"). -/
theorem c3_both_decodes_fail_behavior (r : Request)
    (req : chatCompletionRequest) (msg msg2 : String)
    (hchat : isChatCompletionRequest defaultHandler r = true)
    (hbatch : isBatchRequest defaultHandler r = false)
    (hpost : r.method = "POST")
    (hlen : 0 < r.body.1.raw.length)
    (hfull : unmarshalChatBody r.body.1.parse = (req, some msg))
    (hred : modelOnlyUnmarshalErr r.body.1.parse = some msg2) :
    (serveHTTP defaultHandler r).request.header ParseFailureHeader = some "Unknown model"
    ∧ (serveHTTP defaultHandler r).request.header "X-OpenAI-Model"
        = r.header "X-OpenAI-Model"
    ∧ (serveHTTP defaultHandler r).request.header "X-OpenAI-User"
        = (if req.User = "" then r.header "X-OpenAI-User" else some req.User) := by
  rw [serveHTTP_chatPath defaultHandler r hchat hbatch hpost hlen (by decide)]
  refine ⟨?_, ?_, ?_⟩ <;>
    rw [applySets_eval] <;>
    simp [chatEmits, hfull, hred, lastWrite_append, lastWrite_emitIf, lastWrite,
      fieldName_default_model, fieldName_default_user, fieldName_default_temperature,
      fieldName_default_mct, fieldName_default_logprobs, fieldName_default_top_logprobs,
      fieldName_default_tool_choice, fieldName_default_frequency_penalty,
      fieldName_default_presence_penalty, fieldName_default_top_p,
      fieldName_default_stream, ParseFailureHeader, bne_iff_ne, ite_not] <;>
    by_cases hU : req.User = "" <;> simp [hU]

/-- C6: under the default mapping, for every body on the call-completion
    path whose full decode succeeds with `tool_choice` bound to a JSON
    object, the tool-choice header is not emitted (the forwarded value at
    that name is unchanged) while the model header is emitted
    unconditionally with the decoded model value — which is the empty
    string when the model field is absent. -/
theorem c6_toolchoice_object_model_unconditional (r : Request)
    (req : chatCompletionRequest) (l : List (String × Jval))
    (hchat : isChatCompletionRequest defaultHandler r = true)
    (hbatch : isBatchRequest defaultHandler r = false)
    (hpost : r.method = "POST")
    (hlen : 0 < r.body.1.raw.length)
    (hfull : unmarshalChatBody r.body.1.parse = (req, none))
    (htc : req.ToolChoice = some (Jval.obj l)) :
    (serveHTTP defaultHandler r).request.header "X-OpenAI-Model" = some req.Model
    ∧ (serveHTTP defaultHandler r).request.header "X-OpenAI-Tool-Choice"
        = r.header "X-OpenAI-Tool-Choice" := by
  rw [serveHTTP_chatPath defaultHandler r hchat hbatch hpost hlen (by decide)]
  refine ⟨?_, ?_⟩ <;>
    rw [applySets_eval] <;>
    simp [chatEmits, hfull, htc, assertString, lastWrite_append, lastWrite_emitIf,
      lastWrite, fieldName_default_model, fieldName_default_user,
      fieldName_default_temperature, fieldName_default_mct, fieldName_default_logprobs,
      fieldName_default_top_logprobs, fieldName_default_tool_choice,
      fieldName_default_frequency_penalty, fieldName_default_presence_penalty,
      fieldName_default_top_p, fieldName_default_stream, ParseFailureHeader]

/-- C5 (amended): the classifier's pattern match is evaluated against the
    full request target (path plus query string): two requests with the
    same full `RequestURI` always classify identically. -/
theorem c5_classification_depends_on_full_uri (e : Handler) (r1 r2 : Request)
    (h : r1.requestURI = r2.requestURI) :
    isChatCompletionRequest e r1 = isChatCompletionRequest e r2
    ∧ isBatchRequest e r1 = isBatchRequest e r2 := by
  constructor <;> simp [isChatCompletionRequest, isBatchRequest, h]

/-- C1 (evaluation at the failing input): after a body read error the
    middleware writes the internal-error response, but — because
    `ServeHTTP` does not return after `http.Error` — it also applies
    headers ("empty body", since no bytes were read) and still invokes the
    next stage.  The claim (and the spec) say the next stage is not
    invoked and no headers are applied. -/
theorem c1_transport_error_next_still_invoked :
    (serveHTTP defaultHandler c1Request).response
      = some (500, "read error: connection reset")
    ∧ (serveHTTP defaultHandler c1Request).nextCalled = true
    ∧ (serveHTTP defaultHandler c1Request).request.header ParseFailureHeader
        = some "empty body" := by
  refine ⟨by decide, by decide, by decide⟩

/-- C2 counterexample: at `c2Request` the reduced decode succeeds, yet the
    forwarded request carries the diagnostic header (set before the
    reduced-decode fallback and never removed) and also a user field
    header — contradicting both "exactly one field header" and "the
    diagnostic header is not present". -/
theorem c2_original_claim_false :
    (serveHTTP defaultHandler c2Request).request.header ParseFailureHeader = some c2Msg
    ∧ (serveHTTP defaultHandler c2Request).request.header "X-OpenAI-User" = some "u" := by
  refine ⟨by decide, by decide⟩

/-- Witness instantiating the C2 amended theorem at `c2Request`. -/
theorem c2_reduced_decode_emits_model_and_diagnostic_witness :
    (isChatCompletionRequest defaultHandler c2Request = true)
    ∧ (isBatchRequest defaultHandler c2Request = false)
    ∧ (c2Request.method = "POST")
    ∧ (0 < c2Request.body.1.raw.length)
    ∧ (unmarshalChatBody c2Request.body.1.parse = (c2Struct, some c2Msg))
    ∧ (modelOnlyUnmarshalErr c2Request.body.1.parse = none)
    ∧ ((serveHTTP defaultHandler c2Request).request.header ParseFailureHeader = some c2Msg
       ∧ (serveHTTP defaultHandler c2Request).request.header "X-OpenAI-Model"
           = some c2Struct.Model
       ∧ (serveHTTP defaultHandler c2Request).request.header "X-OpenAI-User"
           = (if c2Struct.User = "" then c2Request.header "X-OpenAI-User"
              else some c2Struct.User)) :=
  ⟨by decide, by decide, rfl, by decide, rfl, rfl,
   c2_reduced_decode_emits_model_and_diagnostic c2Request c2Struct c2Msg
     (by decide) (by decide) rfl (by decide) rfl rfl⟩

/-- C3 counterexample: at `c3Request` both decodes fail, yet the forwarded
    request carries a user field header (populated by the partial full
    decode) alongside the generic diagnostic — contradicting "no field
    headers at all". -/
theorem c3_original_claim_false :
    (serveHTTP defaultHandler c3Request).request.header ParseFailureHeader
      = some "Unknown model"
    ∧ (serveHTTP defaultHandler c3Request).request.header "X-OpenAI-User" = some "u" := by
  refine ⟨by decide, by decide⟩

/-- Witness instantiating the C3 amended theorem at `c3Request`. -/
theorem c3_both_decodes_fail_behavior_witness :
    (isChatCompletionRequest defaultHandler c3Request = true)
    ∧ (isBatchRequest defaultHandler c3Request = false)
    ∧ (c3Request.method = "POST")
    ∧ (0 < c3Request.body.1.raw.length)
    ∧ (unmarshalChatBody c3Request.body.1.parse = (c3Struct, some c3Msg))
    ∧ (modelOnlyUnmarshalErr c3Request.body.1.parse = some c3Msg2)
    ∧ ((serveHTTP defaultHandler c3Request).request.header ParseFailureHeader
         = some "Unknown model"
       ∧ (serveHTTP defaultHandler c3Request).request.header "X-OpenAI-Model"
           = c3Request.header "X-OpenAI-Model"
       ∧ (serveHTTP defaultHandler c3Request).request.header "X-OpenAI-User"
           = (if c3Struct.User = "" then c3Request.header "X-OpenAI-User"
              else some c3Struct.User)) :=
  ⟨by decide, by decide, rfl, by decide, rfl, rfl,
   c3_both_decodes_fail_behavior c3Request c3Struct c3Msg c3Msg2
     (by decide) (by decide) rfl (by decide) rfl rfl⟩

/-- Witness instantiating the C4 theorem at `c4Request`. -/
theorem c4_empty_body_only_diagnostic_witness :
    ((isChatCompletionRequest defaultHandler c4Request
        || isBatchRequest defaultHandler c4Request) = true)
    ∧ (c4Request.method = "POST")
    ∧ (c4Request.body.1.raw.length = 0)
    ∧ (∀ k, (serveHTTP defaultHandler c4Request).request.header k
         = if k = ParseFailureHeader then some "empty body" else c4Request.header k) :=
  ⟨by decide, rfl, rfl,
   c4_empty_body_only_diagnostic defaultHandler c4Request (by decide) rfl rfl⟩

/-- C5 counterexample: the two requests have identical paths but classify
    differently — the query string alone causes the chat-schema match,
    because the pattern is evaluated against `r.RequestURI` (path plus
    query), not against the path component only. -/
theorem c5_original_claim_false :
    c5ReqWithQuery.path = c5ReqNoQuery.path
    ∧ isChatCompletionRequest defaultHandler c5ReqWithQuery = true
    ∧ isChatCompletionRequest defaultHandler c5ReqNoQuery = false :=
  ⟨rfl, by decide, by decide⟩

/-- Witness instantiating the C5 amended theorem at two concrete requests
    with equal full request targets. -/
theorem c5_classification_depends_on_full_uri_witness :
    (c5ReqSameUriA.requestURI = c5ReqSameUriB.requestURI)
    ∧ (isChatCompletionRequest defaultHandler c5ReqSameUriA
         = isChatCompletionRequest defaultHandler c5ReqSameUriB
       ∧ isBatchRequest defaultHandler c5ReqSameUriA
         = isBatchRequest defaultHandler c5ReqSameUriB) :=
  ⟨rfl, c5_classification_depends_on_full_uri defaultHandler c5ReqSameUriA c5ReqSameUriB rfl⟩

/-- Witness instantiating the C6 theorem at `c6Request`: the model header
    is emitted with the empty string, the tool-choice header is not. -/
theorem c6_toolchoice_object_model_unconditional_witness :
    (isChatCompletionRequest defaultHandler c6Request = true)
    ∧ (isBatchRequest defaultHandler c6Request = false)
    ∧ (c6Request.method = "POST")
    ∧ (0 < c6Request.body.1.raw.length)
    ∧ (unmarshalChatBody c6Request.body.1.parse = (c6Struct, none))
    ∧ (c6Struct.ToolChoice = some (Jval.obj [("type", Jval.str "file_search")]))
    ∧ ((serveHTTP defaultHandler c6Request).request.header "X-OpenAI-Model"
         = some c6Struct.Model
       ∧ (serveHTTP defaultHandler c6Request).request.header "X-OpenAI-Tool-Choice"
           = c6Request.header "X-OpenAI-Tool-Choice") :=
  ⟨by decide, by decide, rfl, by decide, rfl, rfl,
   c6_toolchoice_object_model_unconditional c6Request c6Struct
     [("type", Jval.str "file_search")] (by decide) (by decide) rfl (by decide) rfl rfl⟩

/-- Witness instantiating the C7 theorem at `c7Request`. -/
theorem c7_batch_decode_failure_only_diagnostic_witness :
    (isChatCompletionRequest defaultHandler c7Request = false)
    ∧ (isBatchRequest defaultHandler c7Request = true)
    ∧ (c7Request.method = "POST")
    ∧ (0 < c7Request.body.1.raw.length)
    ∧ (0 < defaultHandler.requestFields.length)
    ∧ (unmarshalBatchBody c7Request.body.1.parse
         = ({}, some "invalid character 'I' looking for beginning of value"))
    ∧ (∀ k, (serveHTTP defaultHandler c7Request).request.header k
         = if k = ParseFailureHeader
           then some "invalid character 'I' looking for beginning of value"
           else c7Request.header k) :=
  ⟨by decide, by decide, rfl, by decide, by decide, rfl,
   c7_batch_decode_failure_only_diagnostic defaultHandler c7Request {}
     "invalid character 'I' looking for beginning of value"
     (by decide) (by decide) rfl (by decide) (by decide) rfl⟩

/-- Witness instantiating the C8 body-replay theorem at `c8Request`. -/
theorem c8_body_replay_witness :
    ((isChatCompletionRequest defaultHandler c8Request
        || isBatchRequest defaultHandler c8Request) = true)
    ∧ (c8Request.method = "POST")
    ∧ (c8Request.body.2 = none)
    ∧ ((serveHTTP defaultHandler c8Request).request.body.1.raw = c8Request.body.1.raw
       ∧ (serveHTTP defaultHandler c8Request).request.body.2 = none) :=
  ⟨by decide, rfl, rfl,
   c8_body_replay defaultHandler c8Request (by decide) rfl rfl⟩

/-- Witness instantiating the C10 theorem at `c10Handler`/`c10Request`. -/
theorem c10_missing_model_mapping_emits_nil_header_witness :
    (isChatCompletionRequest c10Handler c10Request = true)
    ∧ (isBatchRequest c10Handler c10Request = false)
    ∧ (c10Request.method = "POST")
    ∧ (0 < c10Request.body.1.raw.length)
    ∧ (0 < c10Handler.requestFields.length)
    ∧ (c10Handler.requestFields.lookup "model" = none)
    ∧ (unmarshalChatBody c10Request.body.1.parse = ({ Model := "gpt" }, none))
    ∧ (((serveHTTP c10Handler c10Request).request.header "<nil>").isSome = true) :=
  ⟨by decide, by decide, rfl, by decide, by decide, rfl, rfl,
   c10_missing_model_mapping_emits_nil_header c10Handler c10Request { Model := "gpt" }
     (by decide) (by decide) rfl (by decide) (by decide) rfl rfl⟩
